import Mathlib

/- Verification of the MCP-PROXY bridge (src/server.ts) against its
natural-language specification.

The TypeScript source is shallowly embedded: the mutable fields of class
ChromeProxyServer become explicit state records, the cooperative
(event-loop) concurrency of initChromeConnection becomes a small-step
relation whose atomic segments are the code regions between suspension
points, and the HTTP request handler (startHTTP, server.ts 192-319)
becomes a state function returning the new state, the emitted effect
events and the HTTP response. -/

namespace MCPProxy

/-- The MCP SDK Client object held in field chromeClient (server.ts line 21).
Only its handshake status matters to the bridge: connected is true once
client.connect(transport) has resolved successfully (line 77). -/
structure Client where
  connected : Bool
  deriving DecidableEq, Repr

/-- The chrome-connection part of the bridge state: the chromeClient field
(null or a Client), plus a ghost counter of how many
Client/StdioClientTransport pairs have been constructed (server.ts 61-75).
Each such construction corresponds to one subprocess spawn attempt, since
StdioClientTransport spawns the chrome-devtools-mcp process. -/
structure ChromeState where
  chromeClient : Option Client
  spawnCount : Nat
  deriving DecidableEq, Repr

/-- Program counter of one call to initChromeConnection (server.ts 52-83).
start: about to run the null check of line 53; awaitingConnect: has
constructed the Client and the StdioClientTransport and is suspended on the
await of connect at line 77; done: returned normally (either the early
return of line 54 or after a successful connect); failed: the catch block
re-threw the connect error (lines 79-82). -/
inductive InitPC where
  | start
  | awaitingConnect
  | done
  | failed
  deriving DecidableEq, Repr

/-- A configuration of the connection-establishment subsystem: the shared
chrome state plus the program counter of every potential concurrent call
to initChromeConnection (the eager startup attempt of line 180 and the
per-request handler calls of lines 96 and 116 are all such calls). -/
structure InitConfig where
  st : ChromeState
  pcs : Nat → InitPC

/-- One atomic step of some call i to initChromeConnection.  The region
from the null check (line 53) through the construction of the Client
(line 61), the construction of the StdioClientTransport (line 72) and the
start of connect (line 77) contains no await, so under the cooperative
event-loop scheduling it is a single atomic segment; the resolution of the
awaited connect is a separate step that either succeeds or throws.  On
failure the catch block logs and re-throws WITHOUT resetting
this.chromeClient (lines 79-82), so the field keeps the never-connected
Client. -/
inductive InitStep : InitConfig → InitConfig → Prop where
  | earlyReturn (st : ChromeState) (pcs : Nat → InitPC) (i : Nat)
      (hpc : pcs i = InitPC.start) (hc : st.chromeClient.isSome = true) :
      InitStep ⟨st, pcs⟩ ⟨st, Function.update pcs i InitPC.done⟩
  | beginConnect (st : ChromeState) (pcs : Nat → InitPC) (i : Nat)
      (hpc : pcs i = InitPC.start) (hc : st.chromeClient = none) :
      InitStep ⟨st, pcs⟩
        ⟨⟨some ⟨false⟩, st.spawnCount + 1⟩, Function.update pcs i InitPC.awaitingConnect⟩
  | connectOk (st : ChromeState) (pcs : Nat → InitPC) (i : Nat)
      (hpc : pcs i = InitPC.awaitingConnect) :
      InitStep ⟨st, pcs⟩
        ⟨⟨some ⟨true⟩, st.spawnCount⟩, Function.update pcs i InitPC.done⟩
  | connectFail (st : ChromeState) (pcs : Nat → InitPC) (i : Nat)
      (hpc : pcs i = InitPC.awaitingConnect) :
      InitStep ⟨st, pcs⟩ ⟨st, Function.update pcs i InitPC.failed⟩

/-- Initial configuration: chromeClient is null, nothing has been spawned,
and every potential caller is at its null check. -/
def initConfig : InitConfig :=
  ⟨⟨none, 0⟩, fun _ => InitPC.start⟩

/-- Configuration after the first call spawned and its connect threw:
chromeClient still holds the never-connected Client (the catch of server.ts
79-82 does not reset the field), one pair was constructed, caller 0 has
propagated the failure. -/
def poisonedConfig : InitConfig :=
  ⟨⟨some ⟨false⟩, 1⟩, Function.update (fun _ => InitPC.start) 0 InitPC.failed⟩

/-- Intermediate configuration: caller 0 has constructed the pair and is
suspended on the awaited connect. -/
def midConfig : InitConfig :=
  ⟨⟨some ⟨false⟩, 1⟩, Function.update (fun _ => InitPC.start) 0 InitPC.awaitingConnect⟩

/-- Configuration after the first call spawned and its connect resolved
successfully. -/
def connectedConfig : InitConfig :=
  ⟨⟨some ⟨true⟩, 1⟩, Function.update (fun _ => InitPC.start) 0 InitPC.done⟩

/-- Invariant of the connection-establishment subsystem: at most one pair
ever constructed, the chromeClient field is null exactly when nothing was
constructed yet, and a caller suspended on connect implies the field is
already set. -/
def InitInv (c : InitConfig) : Prop :=
  c.st.spawnCount ≤ 1 ∧
  (c.st.chromeClient = none ↔ c.st.spawnCount = 0) ∧
  (∀ i, c.pcs i = InitPC.awaitingConnect → c.st.chromeClient.isSome = true)

theorem initInv_initConfig : InitInv initConfig := by
  refine ⟨by simp [initConfig], by simp [initConfig], ?_⟩
  intro i hi
  simp [initConfig] at hi

theorem initInv_step {c c' : InitConfig} (hinv : InitInv c) (hs : InitStep c c') :
    InitInv c' := by
  obtain ⟨h1, h2, h3⟩ := hinv
  cases hs with
  | earlyReturn st pcs i hpc hc =>
    refine ⟨h1, h2, ?_⟩
    intro j hj
    dsimp only at hj ⊢
    rcases eq_or_ne j i with rfl | hne
    · rw [Function.update_same] at hj
      cases hj
    · rw [Function.update_noteq hne] at hj
      exact h3 j hj
  | beginConnect st pcs i hpc hc =>
    have h0 : st.spawnCount = 0 := h2.mp hc
    refine ⟨by simp [h0], by simp, ?_⟩
    intro j hj
    simp
  | connectOk st pcs i hpc =>
    have hsome : st.chromeClient.isSome = true := h3 i hpc
    have hne : st.spawnCount ≠ 0 := by
      intro h0
      rw [h2.mpr h0] at hsome
      simp at hsome
    refine ⟨h1, by simp [hne], ?_⟩
    intro j hj
    simp
  | connectFail st pcs i hpc =>
    refine ⟨h1, h2, ?_⟩
    intro j hj
    dsimp only at hj ⊢
    rcases eq_or_ne j i with rfl | hne
    · rw [Function.update_same] at hj
      cases hj
    · rw [Function.update_noteq hne] at hj
      exact h3 j hj

theorem initInv_reachable {c : InitConfig}
    (h : Relation.ReflTransGen InitStep initConfig c) : InitInv c := by
  induction h with
  | refl => exact initInv_initConfig
  | tail hsteps hstep ih => exact initInv_step ih hstep

/-- The poisoned configuration is reachable: caller 0 passes the null check,
constructs the Client/transport pair (one spawn), and its awaited connect
throws; the catch re-throws without clearing the field. -/
theorem reach_poisoned :
    Relation.ReflTransGen InitStep initConfig poisonedConfig := by
  have h1 : InitStep initConfig midConfig := by
    exact InitStep.beginConnect ⟨none, 0⟩ (fun _ => InitPC.start) 0 rfl rfl
  have h2 : InitStep midConfig poisonedConfig := by
    have h := InitStep.connectFail ⟨some ⟨false⟩, 1⟩
      (Function.update (fun _ => InitPC.start) 0 InitPC.awaitingConnect) 0
      (by simp)
    have hp : Function.update
        (Function.update (fun _ => InitPC.start) 0 InitPC.awaitingConnect) 0 InitPC.failed =
        Function.update (fun _ => InitPC.start) 0 InitPC.failed :=
      Function.update_idem _ _ _
    rw [hp] at h
    exact h
  exact Relation.ReflTransGen.tail (Relation.ReflTransGen.single h1) h2

/-- Invariant of the poisoned configuration: no step can ever clear the
field, spawn again, or suspend on a fresh connect, because the null check
of line 53 sees the stale Client and returns early. -/
def PoisonedInv (c : InitConfig) : Prop :=
  c.st.chromeClient = some ⟨false⟩ ∧ c.st.spawnCount = 1 ∧
  ∀ i, c.pcs i ≠ InitPC.awaitingConnect

theorem poisonedInv_step {c c' : InitConfig} (hinv : PoisonedInv c)
    (hs : InitStep c c') : PoisonedInv c' := by
  obtain ⟨h1, h2, h3⟩ := hinv
  cases hs with
  | earlyReturn st pcs i hpc hc =>
    refine ⟨h1, h2, ?_⟩
    intro j
    dsimp only
    rcases eq_or_ne j i with rfl | hne
    · rw [Function.update_same]
      intro hj
      cases hj
    · rw [Function.update_noteq hne]
      exact h3 j
  | beginConnect st pcs i hpc hc =>
    dsimp only at h1
    rw [hc] at h1
    cases h1
  | connectOk st pcs i hpc =>
    exact absurd hpc (h3 i)
  | connectFail st pcs i hpc =>
    exact absurd hpc (h3 i)

theorem poisonedInv_poisonedConfig : PoisonedInv poisonedConfig := by
  refine ⟨rfl, rfl, ?_⟩
  intro i
  rcases eq_or_ne i 0 with rfl | hne
  · simp [poisonedConfig]
  · simp [poisonedConfig, Function.update_noteq hne]

theorem poisonedInv_reachable {c : InitConfig}
    (h : Relation.ReflTransGen InitStep poisonedConfig c) : PoisonedInv c := by
  induction h with
  | refl => exact poisonedInv_poisonedConfig
  | tail hsteps hstep ih => exact poisonedInv_step ih hstep

/-- C2: at most one Client/StdioClientTransport pair is ever constructed
over the whole process lifetime, however the eager startup attempt and any
number of concurrent request-handler calls to initChromeConnection
interleave: the null check of server.ts line 53 and the field assignment of
line 61 lie in the same atomic (await-free) segment, so only the first
caller to reach it can pass the check, and the field is never reset. -/
theorem initChromeConnection_single_spawn (c : InitConfig)
    (h : Relation.ReflTransGen InitStep initConfig c) : c.st.spawnCount ≤ 1 :=
  (initInv_reachable h).1

/-- Witness for C2: a concrete reachable configuration (spawned, connect
succeeded) satisfies the spawn bound. -/
theorem initChromeConnection_single_spawn_witness :
    connectedConfig.st.spawnCount ≤ 1 := by
  apply initChromeConnection_single_spawn
  have h1 : InitStep initConfig midConfig :=
    InitStep.beginConnect ⟨none, 0⟩ (fun _ => InitPC.start) 0 rfl rfl
  have h2 : InitStep midConfig connectedConfig := by
    have h := InitStep.connectOk ⟨some ⟨false⟩, 1⟩
      (Function.update (fun _ => InitPC.start) 0 InitPC.awaitingConnect) 0
      (by simp)
    have hp : Function.update
        (Function.update (fun _ => InitPC.start) 0 InitPC.awaitingConnect) 0 InitPC.done =
        Function.update (fun _ => InitPC.start) 0 InitPC.done :=
      Function.update_idem _ _ _
    rw [hp] at h
    exact h
  exact Relation.ReflTransGen.tail (Relation.ReflTransGen.single h1) h2

/-- C1 (code bug): the failure of the first connection attempt propagates
(caller 0 ends in the failed state, modelling the re-throw of server.ts
line 81), the failed configuration is reachable, and from it EVERY later
call to initChromeConnection returns early as if already connected: in all
subsequently reachable configurations the spawn count stays 1, the
chromeClient field keeps the never-connected Client, and no caller can
reach the connect await again.  This contradicts the claim (and the code and its
own fallback message of line 189) that a later call can retry the spawn:
the catch of lines 79-82 re-throws without resetting this.chromeClient,
so the line 53 check treats the stale Client as an established connection. -/
theorem initChromeConnection_failure_poisons :
    Relation.ReflTransGen InitStep initConfig poisonedConfig ∧
    poisonedConfig.pcs 0 = InitPC.failed ∧
    (∀ c', Relation.ReflTransGen InitStep poisonedConfig c' →
      c'.st.spawnCount = 1 ∧ c'.st.chromeClient = some ⟨false⟩ ∧
      ∀ i, c'.pcs i ≠ InitPC.awaitingConnect) := by
  refine ⟨reach_poisoned, by simp [poisonedConfig], ?_⟩
  intro c' h
  obtain ⟨h1, h2, h3⟩ := poisonedInv_reachable h
  exact ⟨h2, h1, h3⟩

/-- Witness for C1: the poisoned-state characterisation applied at the
poisoned configuration itself. -/
theorem initChromeConnection_failure_poisons_witness :
    poisonedConfig.st.spawnCount = 1 ∧
    poisonedConfig.st.chromeClient = some ⟨false⟩ ∧
    ∀ i, poisonedConfig.pcs i ≠ InitPC.awaitingConnect :=
  initChromeConnection_failure_poisons.2.2 poisonedConfig Relation.ReflTransGen.refl

/-- Configured backend address, default of server.ts line 17. -/
def CHROME_URL : String := "http://localhost:9222"

/-- The fixed shared session identifier used for all HTTP traffic
(server.ts line 252). -/
def sharedSessionId : String := "http-shared"

/-- The grace delay in milliseconds passed to setTimeout by the SSE
disconnect listener (server.ts line 286). -/
def graceDelayMs : Nat := 100

/-- A session entry of the activeSessions map (server.ts line 22): the
Server and StreamableHTTPServerTransport pair, represented by the numeric
handles of the two constructed objects. -/
structure Session where
  serverId : Nat
  transportId : Nat
  deriving DecidableEq, Repr

/-- Effect events emitted by the embedded handlers.  initChrome marks an
invocation of initChromeConnection (only the request handlers installed by
setupHandlers perform it, server.ts lines 96 and 116, so it can occur only
among the events of the uninterpreted transport dispatch); the close events carry
the handle of the closed object. -/
inductive Event where
  | initChrome
  | createSession (sid : String)
  | registerCleanup
  | scheduleCleanup (delay : Nat) (sid : String)
  | closeTransport (id : Nat)
  | closeServer (id : Nat)
  | closeClient
  deriving DecidableEq, Repr

/-- The mutable state of the ChromeProxyServer instance relevant to the
HTTP layer: the chromeClient field, the activeSessions map (as an
association list, keys unique by construction), a fresh-handle counter for
newly constructed Server/transport objects, and the queue of scheduled
(delay, sessionId) cleanup timers. -/
structure ServerState where
  chromeClient : Option Client
  activeSessions : List (String × Session)
  nextId : Nat
  pendingCleanups : List (Nat × String)
  deriving DecidableEq, Repr

/-- JavaScript Map.get on the activeSessions map. -/
def lookupSession : List (String × Session) → String → Option Session
  | [], _ => none
  | kv :: rest, sid => if kv.1 = sid then some kv.2 else lookupSession rest sid

/-- JavaScript Map.delete on the activeSessions map. -/
def eraseSession : List (String × Session) → String → List (String × Session)
  | [], _ => []
  | kv :: rest, sid =>
    if kv.1 = sid then eraseSession rest sid else kv :: eraseSession rest sid

theorem lookupSession_eraseSession_self (l : List (String × Session)) (sid : String) :
    lookupSession (eraseSession l sid) sid = none := by
  induction l with
  | nil => rfl
  | cons kv rest ih =>
    by_cases h : kv.1 = sid
    · simp [eraseSession, h, ih]
    · simp [eraseSession, lookupSession, h, ih]

theorem lookupSession_eraseSession_ne (l : List (String × Session)) (sid k : String)
    (h : k ≠ sid) : lookupSession (eraseSession l sid) k = lookupSession l k := by
  induction l with
  | nil => rfl
  | cons kv rest ih =>
    simp only [eraseSession]
    by_cases hk : kv.1 = sid
    · have hkv : kv.1 ≠ k := by
        rw [hk]
        exact Ne.symm h
      rw [if_pos hk, ih]
      simp [lookupSession, hkv]
    · rw [if_neg hk]
      by_cases hkk : kv.1 = k
      · simp [lookupSession, hkk]
      · simp [lookupSession, hkk, ih]

/-- The boolean leading-segment test used by the routing condition of server.ts line
234 (req.url.startsWith of the string slash m c p), embedded over the
character list of the string. -/
def strStartsWith (s p : String) : Bool := p.data.isPrefixOf s.data

/-- The JSON body written by the health endpoint (server.ts 224-229).
chrome_connected embeds the comparison of chromeClient with null and
tools_available embeds the ternary on chromeClient: both depend only on
nonnullness of the field, not on handshake success. -/
structure HealthBody where
  status : String
  chrome_url : String
  chrome_connected : Bool
  tools_available : Bool
  deriving DecidableEq, Repr

def healthBody (chromeClient : Option Client) : HealthBody :=
  { status := "ok"
    chrome_url := CHROME_URL
    chrome_connected := chromeClient.isSome
    tools_available := match chromeClient with | some _ => true | none => false }

/-- HTTP method of an inbound request. -/
inductive Method where
  | GET
  | POST
  | PUT
  | OPTIONS
  deriving DecidableEq, Repr

/-- An inbound HTTP request as seen by the routing code. -/
structure Request where
  url : String
  method : Method
  deriving DecidableEq, Repr

/-- Outcome of the awaited transport.handleRequest call of server.ts line
295 (or of any other awaited operation inside the try of lines 237-297):
either it completes, or it throws with the given headersSent status. -/
inductive ForwardOutcome where
  | ok
  | err (headersSent : Bool) (msg : String)
  deriving DecidableEq, Repr

/-- The HTTP response produced by the request callback. -/
inductive Response where
  | json (status : Nat) (body : HealthBody)
  | empty (status : Nat)
  | delegated (sess : Session)
  | errorJson (status : Nat) (error message requestId : String)
  | alreadySent
  | text (status : Nat) (body : String)
  deriving DecidableEq, Repr

/-- Lines 251-267 of server.ts: look the fixed shared id up in
activeSessions; if present, reuse the stored pair unchanged; otherwise
construct one fresh StreamableHTTPServerTransport (handle nextId) and one
fresh Server wired by setupHandlers to delegate to the shared chromeClient
field (handle nextId + 1), connect them, and store the pair.  The
chromeClient field is not touched on this path. -/
def getOrCreateSession (s : ServerState) : Session × ServerState × List Event :=
  match lookupSession s.activeSessions sharedSessionId with
  | some sess => (sess, s, [])
  | none =>
    let sess : Session := ⟨s.nextId + 1, s.nextId⟩
    (sess,
     { s with
        activeSessions := (sharedSessionId, sess) :: s.activeSessions
        nextId := s.nextId + 2 },
     [Event.createSession sharedSessionId])

/-- The http.createServer request callback (server.ts 192-319): health
check first, then the mcp route (OPTIONS preflight, get-or-create session,
cleanup-listener registration for GET, forwarding with the catch of lines
298-312), then the 404 fallback.  forwardEvents are the events of the
uninterpreted transport dispatch (which runs the installed handlers and may itself
invoke initChromeConnection); they are only incurred when the dispatch is
reached. -/
def handleRequest (s : ServerState) (req : Request) (requestId : String)
    (out : ForwardOutcome) (forwardEvents : List Event) :
    ServerState × List Event × Response :=
  if req.url = "/health" then
    (s, [], Response.json 200 (healthBody s.chromeClient))
  else if req.url = "/mcp" ∨ strStartsWith req.url "/mcp" = true then
    if req.method = Method.OPTIONS then
      (s, [], Response.empty 200)
    else
      let r := getOrCreateSession s
      let r2 : ServerState × List Event :=
        if req.method = Method.GET then
          (r.2.1, r.2.2 ++ [Event.registerCleanup])
        else (r.2.1, r.2.2)
      match out with
      | ForwardOutcome.ok => (r2.1, r2.2 ++ forwardEvents, Response.delegated r.1)
      | ForwardOutcome.err headersSent msg =>
        if headersSent then (r2.1, r2.2 ++ forwardEvents, Response.alreadySent)
        else
          (r2.1, r2.2 ++ forwardEvents,
           Response.errorJson 500 "Internal server error" msg requestId)
  else
    (s, [], Response.text 404 "Not Found. Use /mcp for MCP endpoint or /health for status")

/-- The cleanupSession listener installed on the close and finish signals
of a GET response (server.ts 271-290): it schedules the deferred removal
with the 100 ms grace delay; the registry itself is not modified at signal
time. -/
def cleanupSessionOnSignal (s : ServerState) : ServerState × List Event :=
  ({ s with pendingCleanups := s.pendingCleanups ++ [(graceDelayMs, sharedSessionId)] },
   [Event.scheduleCleanup graceDelayMs sharedSessionId])

/-- Body of the setTimeout callback of server.ts 274-286 (and the same
shape as one iteration of the shutdown loop): if a session is stored under
sid, delete it from the registry, then close its transport and, when that
close did not throw, its server (the try of lines 279-284 whose catch only
logs); if no session is stored, do nothing.  failClose says which close
calls throw. -/
def runCleanupTask (failClose : Event → Bool) (s : ServerState) (sid : String) :
    ServerState × List Event :=
  match lookupSession s.activeSessions sid with
  | none => (s, [])
  | some sess =>
    let e1 := Event.closeTransport sess.transportId
    ({ s with activeSessions := eraseSession s.activeSessions sid },
     if failClose e1 then [e1] else [e1, Event.closeServer sess.serverId])

/-- Close attempts for one session during shutdown (server.ts 156-161):
transport first, then server, the server close skipped when the transport
close threw (single try around both, catch logs and continues). -/
def closeSessionAttempts (failClose : Event → Bool) (sess : Session) : List Event :=
  let e1 := Event.closeTransport sess.transportId
  if failClose e1 then [e1] else [e1, Event.closeServer sess.serverId]

/-- Concatenated close attempts of the shutdown loop over all stored
sessions, in registry order. -/
def sessionCloseEvents (failClose : Event → Bool) :
    List (String × Session) → List Event
  | [] => []
  | kv :: rest => closeSessionAttempts failClose kv.2 ++ sessionCloseEvents failClose rest

/-- The cleanup method (server.ts 151-174): close every stored session
best-effort, clear the registry, then close the chromeClient if present and
null the field; if that close throws, the outer catch logs it and the field
keeps its value. -/
def cleanup (failClose : Event → Bool) (s : ServerState) : ServerState × List Event :=
  let evs := sessionCloseEvents failClose s.activeSessions
  let s1 := { s with activeSessions := ([] : List (String × Session)) }
  match s1.chromeClient with
  | none => (s1, evs)
  | some _ =>
    if failClose Event.closeClient then (s1, evs ++ [Event.closeClient])
    else ({ s1 with chromeClient := none }, evs ++ [Event.closeClient])

/-- The SIGINT/SIGTERM handlers (server.ts 137-149): await cleanup, then
process.exit(0); the exit status is 0 regardless of cleanup failures. -/
def onTerminationSignal (failClose : Event → Bool) (s : ServerState) :
    ServerState × List Event × Nat :=
  ((cleanup failClose s).1, (cleanup failClose s).2, 0)

theorem not_health_of_mcp {u : String}
    (h : u = "/mcp" ∨ strStartsWith u "/mcp" = true) : u ≠ "/health" := by
  intro he
  subst he
  rcases h with h | h
  · exact absurd h (by decide)
  · exact absurd h (by decide)

theorem runCleanupTask_absent (f : Event → Bool) (s : ServerState) (sid : String)
    (hl : lookupSession s.activeSessions sid = none) :
    runCleanupTask f s sid = (s, []) := by
  simp [runCleanupTask, hl]

theorem runCleanupTask_lookup_self (f : Event → Bool) (s : ServerState) (sid : String) :
    lookupSession (runCleanupTask f s sid).1.activeSessions sid = none := by
  cases hl : lookupSession s.activeSessions sid with
  | none => simp [runCleanupTask, hl]
  | some sess => simp [runCleanupTask, hl, lookupSession_eraseSession_self]

theorem mem_sessionCloseEvents (f : Event → Bool) (l : List (String × Session)) :
    ∀ kv ∈ l, Event.closeTransport kv.2.transportId ∈ sessionCloseEvents f l := by
  induction l with
  | nil =>
    intro kv h
    cases h
  | cons a rest ih =>
    intro kv h
    rcases List.mem_cons.mp h with rfl | h
    · by_cases hf : f (Event.closeTransport kv.2.transportId) <;>
        simp [sessionCloseEvents, closeSessionAttempts, hf]
    · simp [sessionCloseEvents]
      exact Or.inr (ih kv h)

theorem ordered_sessionCloseEvents (f : Event → Bool) (l : List (String × Session)) :
    ∀ kv ∈ l, f (Event.closeTransport kv.2.transportId) = false →
      ∃ l1 l2, sessionCloseEvents f l =
        l1 ++ Event.closeTransport kv.2.transportId ::
          Event.closeServer kv.2.serverId :: l2 := by
  induction l with
  | nil =>
    intro kv h
    cases h
  | cons a rest ih =>
    intro kv h hf
    rcases List.mem_cons.mp h with rfl | h
    · exact ⟨[], sessionCloseEvents f rest,
        by simp [sessionCloseEvents, closeSessionAttempts, hf]⟩
    · obtain ⟨l1, l2, he⟩ := ih kv h hf
      exact ⟨closeSessionAttempts f a.2 ++ l1, l2,
        by simp [sessionCloseEvents, he]⟩

theorem cleanup_sessions_empty (f : Event → Bool) (s : ServerState) :
    (cleanup f s).1.activeSessions = [] := by
  cases hc : s.chromeClient with
  | none => simp [cleanup, hc]
  | some c => by_cases hf : f Event.closeClient <;> simp [cleanup, hc, hf]

theorem cleanup_events (f : Event → Bool) (s : ServerState) :
    (cleanup f s).2 = sessionCloseEvents f s.activeSessions ++
      (match s.chromeClient with | none => [] | some _ => [Event.closeClient]) := by
  cases hc : s.chromeClient with
  | none => simp [cleanup, hc]
  | some c => by_cases hf : f Event.closeClient <;> simp [cleanup, hc, hf]

/-- C3 counterexample: the poisoned configuration (reachable from the
initial state by a failed first connect) has a chromeClient field holding
the never-connected Client, yet the health body computed from that field
reports chrome_connected = true: the flag is not equivalent to the
existence of a successfully handshaken connection. -/
theorem health_connected_flag_cex :
    Relation.ReflTransGen InitStep initConfig poisonedConfig ∧
    poisonedConfig.st.chromeClient = some ⟨false⟩ ∧
    (healthBody poisonedConfig.st.chromeClient).chrome_connected = true :=
  ⟨reach_poisoned, rfl, by decide⟩

/-- C3 (amended): every request whose url is /health is answered with
status 200 and the JSON health body, whose chrome_connected flag equals
nonnullness of the chromeClient field at the time of the request (which,
after a failed connection attempt, can be true although no successfully
handshaken connection exists). -/
theorem health_connected_iff_client_field (s : ServerState) (req : Request)
    (rid : String) (out : ForwardOutcome) (fe : List Event)
    (h : req.url = "/health") :
    (handleRequest s req rid out fe).2.2 =
      Response.json 200 (healthBody s.chromeClient) ∧
    (healthBody s.chromeClient).chrome_connected = s.chromeClient.isSome ∧
    (healthBody s.chromeClient).status = "ok" ∧
    (healthBody s.chromeClient).chrome_url = CHROME_URL := by
  refine ⟨?_, rfl, rfl, rfl⟩
  simp [handleRequest, h]

/-- Witness for the amended C3 at a concrete state and request. -/
theorem health_connected_iff_client_field_witness :
    (handleRequest ⟨some ⟨true⟩, [], 0, []⟩ ⟨"/health", Method.GET⟩ "rid"
        ForwardOutcome.ok []).2.2 =
      Response.json 200 (healthBody (some ⟨true⟩)) ∧
    (healthBody (some ⟨true⟩ : Option Client)).chrome_connected =
      (some ⟨true⟩ : Option Client).isSome ∧
    (healthBody (some ⟨true⟩ : Option Client)).status = "ok" ∧
    (healthBody (some ⟨true⟩ : Option Client)).chrome_url = CHROME_URL :=
  health_connected_iff_client_field ⟨some ⟨true⟩, [], 0, []⟩
    ⟨"/health", Method.GET⟩ "rid" ForwardOutcome.ok [] rfl

/-- C4: handling a request whose url is /health leaves the whole bridge
state (in particular the chromeClient field and the activeSessions
registry) unchanged and emits no events at all, so in particular
initChromeConnection is never invoked on that path regardless of what the
uninterpreted transport dispatch would have produced. -/
theorem health_no_side_effects (s : ServerState) (req : Request) (rid : String)
    (out : ForwardOutcome) (fe : List Event) (h : req.url = "/health") :
    (handleRequest s req rid out fe).1 = s ∧
    (handleRequest s req rid out fe).2.1 = [] ∧
    (handleRequest s req rid out fe).1.chromeClient = s.chromeClient ∧
    (handleRequest s req rid out fe).1.activeSessions = s.activeSessions ∧
    Event.initChrome ∉ (handleRequest s req rid out fe).2.1 := by
  simp [handleRequest, h]

/-- Witness for C4 at a concrete state and request. -/
theorem health_no_side_effects_witness :
    (handleRequest ⟨some ⟨true⟩, [(sharedSessionId, ⟨1, 0⟩)], 2, []⟩
        ⟨"/health", Method.GET⟩ "rid" ForwardOutcome.ok [Event.initChrome]).1 =
      ⟨some ⟨true⟩, [(sharedSessionId, ⟨1, 0⟩)], 2, []⟩ ∧
    (handleRequest ⟨some ⟨true⟩, [(sharedSessionId, ⟨1, 0⟩)], 2, []⟩
        ⟨"/health", Method.GET⟩ "rid" ForwardOutcome.ok [Event.initChrome]).2.1 = [] ∧
    (handleRequest ⟨some ⟨true⟩, [(sharedSessionId, ⟨1, 0⟩)], 2, []⟩
        ⟨"/health", Method.GET⟩ "rid" ForwardOutcome.ok [Event.initChrome]).1.chromeClient =
      (⟨some ⟨true⟩, [(sharedSessionId, ⟨1, 0⟩)], 2, []⟩ : ServerState).chromeClient ∧
    (handleRequest ⟨some ⟨true⟩, [(sharedSessionId, ⟨1, 0⟩)], 2, []⟩
        ⟨"/health", Method.GET⟩ "rid" ForwardOutcome.ok [Event.initChrome]).1.activeSessions =
      (⟨some ⟨true⟩, [(sharedSessionId, ⟨1, 0⟩)], 2, []⟩ : ServerState).activeSessions ∧
    Event.initChrome ∉ (handleRequest ⟨some ⟨true⟩, [(sharedSessionId, ⟨1, 0⟩)], 2, []⟩
        ⟨"/health", Method.GET⟩ "rid" ForwardOutcome.ok [Event.initChrome]).2.1 :=
  health_no_side_effects ⟨some ⟨true⟩, [(sharedSessionId, ⟨1, 0⟩)], 2, []⟩
    ⟨"/health", Method.GET⟩ "rid" ForwardOutcome.ok [Event.initChrome] rfl

/-- C5: on the mcp path, if a session is stored under the shared id it is
returned unchanged with no construction at all; otherwise exactly one new
server/transport pair is constructed from fresh handles, stored under the
shared id, and returned; in both cases the chromeClient field is untouched
and the get-or-create path emits no initChromeConnection invocation (so it
never constructs a second backend child connection); and a POST request on
the mcp route is delegated to exactly the session that getOrCreateSession
yields, with the resulting registry state. -/
theorem mcp_getOrCreate_session (s : ServerState) :
    (∀ sess, lookupSession s.activeSessions sharedSessionId = some sess →
      getOrCreateSession s = (sess, s, [])) ∧
    (lookupSession s.activeSessions sharedSessionId = none →
      (getOrCreateSession s).1 = ⟨s.nextId + 1, s.nextId⟩ ∧
      (getOrCreateSession s).2.1.activeSessions =
        (sharedSessionId, (getOrCreateSession s).1) :: s.activeSessions ∧
      lookupSession (getOrCreateSession s).2.1.activeSessions sharedSessionId =
        some (getOrCreateSession s).1 ∧
      (getOrCreateSession s).2.1.nextId = s.nextId + 2 ∧
      (getOrCreateSession s).2.2 = [Event.createSession sharedSessionId]) ∧
    Event.initChrome ∉ (getOrCreateSession s).2.2 ∧
    (getOrCreateSession s).2.1.chromeClient = s.chromeClient ∧
    (∀ req rid fe, (req.url = "/mcp" ∨ strStartsWith req.url "/mcp" = true) →
      req.method = Method.POST →
      (handleRequest s req rid ForwardOutcome.ok fe).2.2 =
        Response.delegated (getOrCreateSession s).1 ∧
      (handleRequest s req rid ForwardOutcome.ok fe).1 =
        (getOrCreateSession s).2.1) := by
  refine ⟨?_, ?_, ?_, ?_, ?_⟩
  · intro sess hl
    simp [getOrCreateSession, hl]
  · intro hl
    simp [getOrCreateSession, hl, lookupSession]
  · cases hl : lookupSession s.activeSessions sharedSessionId <;>
      simp [getOrCreateSession, hl]
  · cases hl : lookupSession s.activeSessions sharedSessionId <;>
      simp [getOrCreateSession, hl]
  · intro req rid fe hurl hpost
    have hnh : req.url ≠ "/health" := not_health_of_mcp hurl
    constructor <;> simp [handleRequest, hnh, hurl, hpost]

/-- Witness for C5: the reuse branch on a state holding a session, the
construction branch on the empty state, and the POST delegation. -/
theorem mcp_getOrCreate_session_witness :
    getOrCreateSession ⟨some ⟨true⟩, [(sharedSessionId, ⟨1, 0⟩)], 2, []⟩ =
      (⟨1, 0⟩, ⟨some ⟨true⟩, [(sharedSessionId, ⟨1, 0⟩)], 2, []⟩, []) ∧
    (getOrCreateSession ⟨none, [], 0, []⟩).1 = ⟨0 + 1, 0⟩ ∧
    (handleRequest ⟨none, [], 0, []⟩ ⟨"/mcp", Method.POST⟩ "rid" ForwardOutcome.ok []).2.2 =
      Response.delegated (getOrCreateSession ⟨none, [], 0, []⟩).1 := by
  refine ⟨?_, ?_, ?_⟩
  · exact (mcp_getOrCreate_session ⟨some ⟨true⟩, [(sharedSessionId, ⟨1, 0⟩)], 2, []⟩).1
      ⟨1, 0⟩ (by decide)
  · exact ((mcp_getOrCreate_session ⟨none, [], 0, []⟩).2.1 (by decide)).1
  · exact ((mcp_getOrCreate_session ⟨none, [], 0, []⟩).2.2.2.2
      ⟨"/mcp", Method.POST⟩ "rid" [] (Or.inl rfl) rfl).1

/-- C6: the close/finish listener of a GET stream does not touch the
registry or the chromeClient at signal time; it only schedules the removal
with the positive 100 ms grace delay; and the deferred removal, when it
runs, removes the shared session (if still present) while leaving every
other session key and the shared chromeClient untouched. -/
theorem session_cleanup_deferred_and_isolated (f : Event → Bool) (s : ServerState) :
    (cleanupSessionOnSignal s).1.activeSessions = s.activeSessions ∧
    (cleanupSessionOnSignal s).1.chromeClient = s.chromeClient ∧
    (cleanupSessionOnSignal s).1.pendingCleanups =
      s.pendingCleanups ++ [(graceDelayMs, sharedSessionId)] ∧
    0 < graceDelayMs ∧
    (cleanupSessionOnSignal s).2 =
      [Event.scheduleCleanup graceDelayMs sharedSessionId] ∧
    lookupSession (runCleanupTask f s sharedSessionId).1.activeSessions
      sharedSessionId = none ∧
    (∀ k, k ≠ sharedSessionId →
      lookupSession (runCleanupTask f s sharedSessionId).1.activeSessions k =
        lookupSession s.activeSessions k) ∧
    (runCleanupTask f s sharedSessionId).1.chromeClient = s.chromeClient := by
  refine ⟨rfl, rfl, rfl, by decide, rfl, runCleanupTask_lookup_self f s sharedSessionId,
    ?_, ?_⟩
  · intro k hk
    cases hl : lookupSession s.activeSessions sharedSessionId with
    | none => simp [runCleanupTask, hl]
    | some sess => simp [runCleanupTask, hl, lookupSession_eraseSession_ne _ _ _ hk]
  · cases hl : lookupSession s.activeSessions sharedSessionId with
    | none => simp [runCleanupTask, hl]
    | some sess => simp [runCleanupTask, hl]

/-- Witness for C6 at a concrete state holding the shared session and one
other session. -/
theorem session_cleanup_deferred_and_isolated_witness :
    (cleanupSessionOnSignal ⟨some ⟨true⟩, [(sharedSessionId, ⟨1, 0⟩), ("other", ⟨3, 2⟩)], 4, []⟩).1.activeSessions =
      [(sharedSessionId, ⟨1, 0⟩), ("other", ⟨3, 2⟩)] ∧
    lookupSession (runCleanupTask (fun _ => false)
        ⟨some ⟨true⟩, [(sharedSessionId, ⟨1, 0⟩), ("other", ⟨3, 2⟩)], 4, []⟩
        sharedSessionId).1.activeSessions sharedSessionId = none ∧
    lookupSession (runCleanupTask (fun _ => false)
        ⟨some ⟨true⟩, [(sharedSessionId, ⟨1, 0⟩), ("other", ⟨3, 2⟩)], 4, []⟩
        sharedSessionId).1.activeSessions "other" =
      lookupSession [(sharedSessionId, ⟨1, 0⟩), ("other", ⟨3, 2⟩)] "other" := by
  have h := session_cleanup_deferred_and_isolated (fun _ => false)
    ⟨some ⟨true⟩, [(sharedSessionId, ⟨1, 0⟩), ("other", ⟨3, 2⟩)], 4, []⟩
  exact ⟨h.1, h.2.2.2.2.2.1, h.2.2.2.2.2.2.1 "other" (by decide)⟩

/-- C7: removal of a session is a no-op (no close attempted, state
unchanged) when nothing is stored under the identifier; when a session is
stored, it is deleted from the registry, the transport endpoint is closed
first and then the server endpoint (when the transport close does not
throw); and running the removal a second time is a no-op. -/
theorem session_removal_idempotent_ordered (f : Event → Bool) (s : ServerState)
    (sid : String) :
    (lookupSession s.activeSessions sid = none →
      runCleanupTask f s sid = (s, [])) ∧
    (∀ sess, lookupSession s.activeSessions sid = some sess →
      (runCleanupTask f s sid).1.activeSessions = eraseSession s.activeSessions sid ∧
      lookupSession (runCleanupTask f s sid).1.activeSessions sid = none ∧
      (f (Event.closeTransport sess.transportId) = false →
        (runCleanupTask f s sid).2 =
          [Event.closeTransport sess.transportId, Event.closeServer sess.serverId])) ∧
    runCleanupTask f (runCleanupTask f s sid).1 sid = ((runCleanupTask f s sid).1, []) := by
  refine ⟨?_, ?_, ?_⟩
  · intro hl
    exact runCleanupTask_absent f s sid hl
  · intro sess hl
    refine ⟨by simp [runCleanupTask, hl], runCleanupTask_lookup_self f s sid, ?_⟩
    intro hf
    simp [runCleanupTask, hl, hf]
  · exact runCleanupTask_absent f _ sid (runCleanupTask_lookup_self f s sid)

/-- Witness for C7: the no-op branch on the empty registry and the ordered
close pair on a stored session. -/
theorem session_removal_idempotent_ordered_witness :
    runCleanupTask (fun _ => false) ⟨none, [], 0, []⟩ sharedSessionId =
      (⟨none, [], 0, []⟩, []) ∧
    (runCleanupTask (fun _ => false) ⟨some ⟨true⟩, [(sharedSessionId, ⟨1, 0⟩)], 2, []⟩
        sharedSessionId).2 =
      [Event.closeTransport 0, Event.closeServer 1] := by
  refine ⟨?_, ?_⟩
  · exact (session_removal_idempotent_ordered (fun _ => false) ⟨none, [], 0, []⟩
      sharedSessionId).1 (by decide)
  · exact (((session_removal_idempotent_ordered (fun _ => false)
      ⟨some ⟨true⟩, [(sharedSessionId, ⟨1, 0⟩)], 2, []⟩ sharedSessionId).2.1
      ⟨1, 0⟩ (by decide)).2.2 rfl)

/-- C8: when handling a request on the mcp route (any non-OPTIONS method)
throws, the response is the 500 JSON body carrying the generic message
"Internal server error", the thrown message and the request-correlation
token if no headers were sent yet, and no second response otherwise. -/
theorem mcp_error_response_500 (s : ServerState) (req : Request) (rid msg : String)
    (fe : List Event)
    (hurl : req.url = "/mcp" ∨ strStartsWith req.url "/mcp" = true)
    (hm : req.method ≠ Method.OPTIONS) :
    (handleRequest s req rid (ForwardOutcome.err false msg) fe).2.2 =
      Response.errorJson 500 "Internal server error" msg rid ∧
    (handleRequest s req rid (ForwardOutcome.err true msg) fe).2.2 =
      Response.alreadySent := by
  have hnh : req.url ≠ "/health" := not_health_of_mcp hurl
  constructor <;> simp [handleRequest, hnh, hurl, hm]

/-- Witness for C8 at a concrete POST request. -/
theorem mcp_error_response_500_witness :
    (handleRequest ⟨none, [], 0, []⟩ ⟨"/mcp", Method.POST⟩ "rid"
        (ForwardOutcome.err false "boom") []).2.2 =
      Response.errorJson 500 "Internal server error" "boom" "rid" ∧
    (handleRequest ⟨none, [], 0, []⟩ ⟨"/mcp", Method.POST⟩ "rid"
        (ForwardOutcome.err true "boom") []).2.2 =
      Response.alreadySent :=
  mcp_error_response_500 ⟨none, [], 0, []⟩ ⟨"/mcp", Method.POST⟩ "rid" "boom" []
    (Or.inl rfl) (by decide)

/-- A concrete shutdown scenario: a connected client, one stored session,
and a failure oracle under which the chromeClient close throws. -/
def failClientClose : Event → Bool
  | Event.closeClient => true
  | _ => false

def shutdownCexState : ServerState :=
  ⟨some ⟨true⟩, [(sharedSessionId, ⟨1, 0⟩)], 2, []⟩

/-- C9 counterexample: on a termination signal with a chromeClient whose
close throws, the cleanup clears the registry and the process still exits
with status 0, and the client close is attempted, but the chromeClient
field is NOT cleared: the null assignment of server.ts line 167 is skipped
when the close of line 166 throws into the outer catch, so the claim that
the shared connection is always closed and cleared does not hold. -/
theorem cleanup_client_not_cleared_cex :
    (onTerminationSignal failClientClose shutdownCexState).1.chromeClient =
      some ⟨true⟩ ∧
    Event.closeClient ∈ (onTerminationSignal failClientClose shutdownCexState).2.1 ∧
    (onTerminationSignal failClientClose shutdownCexState).2.2 = 0 ∧
    (onTerminationSignal failClientClose shutdownCexState).1.activeSessions = [] := by
  refine ⟨by decide, by decide, by decide, by decide⟩

/-- C9 (amended): on a termination signal, every stored session gets a
transport-close attempt (and, when that close does not throw, the server
close immediately after it, in that order), individual failures do not
prevent the remaining sessions or the client close, the registry is empty
afterwards, the close of the shared chromeClient is attempted whenever the
field is set and the field is cleared when that close succeeds, and the
process exits with status 0 in all cases. -/
theorem cleanup_best_effort_shutdown (f : Event → Bool) (s : ServerState) :
    (onTerminationSignal f s).1.activeSessions = [] ∧
    (onTerminationSignal f s).2.2 = 0 ∧
    (∀ kv ∈ s.activeSessions,
      Event.closeTransport kv.2.transportId ∈ (onTerminationSignal f s).2.1) ∧
    (∀ kv ∈ s.activeSessions, f (Event.closeTransport kv.2.transportId) = false →
      ∃ l1 l2, (onTerminationSignal f s).2.1 =
        l1 ++ Event.closeTransport kv.2.transportId ::
          Event.closeServer kv.2.serverId :: l2) ∧
    (s.chromeClient.isSome = true →
      Event.closeClient ∈ (onTerminationSignal f s).2.1) ∧
    (s.chromeClient.isSome = true → f Event.closeClient = false →
      (onTerminationSignal f s).1.chromeClient = none) ∧
    (s.chromeClient = none → (onTerminationSignal f s).1.chromeClient = none) := by
  refine ⟨cleanup_sessions_empty f s, rfl, ?_, ?_, ?_, ?_, ?_⟩
  · intro kv h
    have hm := mem_sessionCloseEvents f s.activeSessions kv h
    show Event.closeTransport kv.2.transportId ∈ (cleanup f s).2
    rw [cleanup_events f s]
    exact List.mem_append_left _ hm
  · intro kv h hf
    obtain ⟨l1, l2, he⟩ := ordered_sessionCloseEvents f s.activeSessions kv h hf
    refine ⟨l1, l2 ++ (match s.chromeClient with | none => [] | some _ => [Event.closeClient]), ?_⟩
    show (cleanup f s).2 = _
    rw [cleanup_events f s, he]
    simp
  · intro h1
    obtain ⟨c, hc⟩ := Option.isSome_iff_exists.mp h1
    show Event.closeClient ∈ (cleanup f s).2
    rw [cleanup_events f s, hc]
    simp
  · intro h1 h2
    obtain ⟨c, hc⟩ := Option.isSome_iff_exists.mp h1
    show (cleanup f s).1.chromeClient = none
    simp [cleanup, hc, h2]
  · intro hc
    show (cleanup f s).1.chromeClient = none
    simp [cleanup, hc]

/-- Witness for the amended C9 at a concrete state where all closes
succeed. -/
theorem cleanup_best_effort_shutdown_witness :
    (onTerminationSignal (fun _ => false) shutdownCexState).1.activeSessions = [] ∧
    Event.closeTransport 0 ∈ (onTerminationSignal (fun _ => false) shutdownCexState).2.1 ∧
    (onTerminationSignal (fun _ => false) shutdownCexState).1.chromeClient = none := by
  have h := cleanup_best_effort_shutdown (fun _ => false) shutdownCexState
  refine ⟨h.1, ?_, h.2.2.2.2.2.1 (by decide) rfl⟩
  have hm := h.2.2.1 (sharedSessionId, ⟨1, 0⟩) (by simp [shutdownCexState])
  simpa using hm

/-- C10: the tools_available field of the health body always equals the
chrome_connected field, and both equal nonnullness of the chromeClient
field, so the two flags can never differ. -/
theorem health_flags_equal (cc : Option Client) :
    (healthBody cc).tools_available = (healthBody cc).chrome_connected ∧
    (healthBody cc).chrome_connected = cc.isSome := by
  cases cc <;> exact ⟨rfl, rfl⟩

end MCPProxy
